import Mathlib

/-!
Verification development for the `vm-detector` repository.

The detection engine (`detector.py`) and the behavioral analyzer
(`behavioral_analyzer.py`) are embedded shallowly: Python floats are
modelled as rationals (`ℚ`), Python dicts with a known shape as Lean
structures, and the dynamically-typed snapshot values (needed for the
failure-semantics claims) as an explicit `PyVal` type with Python's
raising operations returning `Except`.

String helpers are written over `List Char` (structural recursion) so
that concrete instances evaluate inside proofs; they model Python's
`str.lower`, substring test (`in`), `str.startswith` and
`str.replace(":", "-")` on the ASCII strings this program manipulates.
-/

namespace VMDetect

/-- Model of `str.lower` on one ASCII character. -/
def lowerChar (c : Char) : Char :=
  if 65 ≤ c.toNat ∧ c.toNat ≤ 90 then Char.ofNat (c.toNat + 32) else c

/-- Model of Python `s.lower()` (ASCII). -/
def lowerStr (s : String) : String := String.mk (s.data.map lowerChar)

/-- Boolean list-prefix test. -/
def prefixB : List Char → List Char → Bool
  | [], _ => true
  | _ :: _, [] => false
  | a :: as, b :: bs => (a == b) && prefixB as bs

/-- Boolean list-infix test. -/
def infixB (needle : List Char) : List Char → Bool
  | [] => prefixB needle []
  | b :: bs => prefixB needle (b :: bs) || infixB needle bs

/-- Model of Python `needle in hay` for strings (substring test). -/
def strContains (needle hay : String) : Bool := infixB needle.data hay.data

/-- Model of Python `s.startswith(pre)`. -/
def strStarts (s pre : String) : Bool := prefixB pre.data s.data

/-- Model of Python `s.replace(":", "-")` (a one-character pattern, hence a map). -/
def replaceColonDash (s : String) : String :=
  String.mk (s.data.map (fun c => if c == ':' then '-' else c))

/-- Model of Python `d.get(key, dflt)` on a string-keyed dict of floats
(used for the `weights` and `thresholds` dictionaries). -/
def dget (m : List (String × ℚ)) (key : String) (dflt : ℚ) : ℚ :=
  (m.lookup key).getD dflt

/-! The typed data model: `SystemSnapshot` fields as collected by
`collector.py` and consumed by `VMRemoteDetector` (spec section 3),
and the signature configuration read from `signatures.json`. -/

structure BiosData where
  manufacturer : String := ""
  product : String := ""
  cpu_info : String := ""
deriving DecidableEq

structure NetworkData where
  mac_addresses : List String := []
  listening_ports : List Int := []
deriving DecidableEq

structure SessionData where
  session_name : String := ""
  ssh_connection : Bool := false
deriving DecidableEq

structure GpuData where
  count : Int := 0
  devices : List String := []
  nvidia_driver : Bool := false
  amd_driver : Bool := false
  intel_driver : Bool := false
  processes : List String := []
deriving DecidableEq

structure TimingData where
  variance : ℚ := 0
  std_dev : ℚ := 0
  avg_time : ℚ := 0
  min_time : ℚ := 0
  max_time : ℚ := 0
  odd_cpu_count : Bool := false
  cpu_count : ℚ := 0
  cpu_freq_current : ℚ := 0
  cpu_freq_min : ℚ := 0
  cpu_freq_max : ℚ := 0
deriving DecidableEq

structure BrowserConnections where
  active_meeting_browsers : List String := []
  detected_meeting_domains : List String := []
  browser_connection_counts : List (String × ℚ) := []
deriving DecidableEq

structure SystemData where
  bios : BiosData := {}
  network : NetworkData := {}
  processes : List String := []
  session : SessionData := {}
  gpu : GpuData := {}
  timing : TimingData := {}
  browser_connections : BrowserConnections := {}
deriving DecidableEq

structure VmIndicators where
  bios_keywords : List String := []
  mac_vendors : List String := []
  processes : List String := []
deriving DecidableEq

structure RemoteIndicators where
  processes : List String := []
  ports : List Int := []
  session_keywords : List String := []
deriving DecidableEq

structure ScreenShareIndicators where
  processes : List String := []
  browser_processes : List String := []
deriving DecidableEq

structure SignatureSet where
  vm_indicators : VmIndicators := {}
  remote_indicators : RemoteIndicators := {}
  screen_share_indicators : ScreenShareIndicators := {}
  weights : List (String × ℚ) := []
  thresholds : List (String × ℚ) := []
deriving DecidableEq

/-- `VMRemoteDetector._get_default_signatures`: all indicator lists empty,
`weights` and `thresholds` empty dicts. -/
def default_signatures : SignatureSet := {}

/-! The signal checkers of `detector.py`, one Lean function per Python
method.  Each loop is a `List.foldl` over the same iteration order as the
source; the accumulated state is the pair `(score, matches)`. -/

/-- `VMRemoteDetector._check_bios_keywords` (detector.py lines 38-56). -/
def check_bios_keywords (sigs : SignatureSet) (bios_data : BiosData) : ℚ × List String :=
  let keywords := sigs.vm_indicators.bios_keywords
  let manufacturer := lowerStr bios_data.manufacturer
  let product := lowerStr bios_data.product
  let cpu_info := lowerStr bios_data.cpu_info
  let r := keywords.foldl (fun acc keyword =>
    let acc1 :=
      if strContains keyword manufacturer || strContains keyword product then
        (acc.1 + dget sigs.weights "bios_match" 0.4,
         acc.2 ++ ["BIOS: " ++ keyword ++ " found in manufacturer/product"])
      else acc
    if strContains keyword cpu_info then
      (acc1.1 + dget sigs.weights "cpu_match" 0.2,
       acc1.2 ++ ["CPU: " ++ keyword ++ " found in CPU info"])
    else acc1) ((0 : ℚ), ([] : List String))
  (min r.1 1, r.2)

/-- `VMRemoteDetector._check_mac_addresses` (detector.py lines 58-72). -/
def check_mac_addresses (sigs : SignatureSet) (mac_addresses : List String) : ℚ × List String :=
  let vm_mac_vendors := sigs.vm_indicators.mac_vendors
  let r := mac_addresses.foldl (fun acc mac =>
    let mac_lower := replaceColonDash (lowerStr mac)
    vm_mac_vendors.foldl (fun acc vendor =>
      let vendor_normalized := replaceColonDash (lowerStr vendor)
      if strStarts mac_lower vendor_normalized then
        (acc.1 + dget sigs.weights "mac_match" 0.3,
         acc.2 ++ ["MAC: " ++ mac ++ " matches VM vendor " ++ vendor])
      else acc) acc) ((0 : ℚ), ([] : List String))
  (min r.1 1, r.2)

/-- `VMRemoteDetector._check_processes` (detector.py lines 74-85).
`processes` is the signature list iterated over, `process_list` the
snapshot's process names turned into a set (membership only, so the set
is modelled by list membership). -/
def check_processes (weights : List (String × ℚ)) (processes : List String)
    (process_list : List String) : ℚ × List String :=
  let r := processes.foldl (fun acc proc =>
    if process_list.contains proc then
      (acc.1 + dget weights "process_match" 0.25,
       acc.2 ++ ["Process: " ++ proc ++ " is running"])
    else acc) ((0 : ℚ), ([] : List String))
  (min r.1 1, r.2)

/-- `VMRemoteDetector._check_ports` (detector.py lines 87-99). -/
def check_ports (sigs : SignatureSet) (listening_ports : List Int) : ℚ × List String :=
  let remote_ports := sigs.remote_indicators.ports
  let r := remote_ports.foldl (fun acc port =>
    if listening_ports.contains port then
      (acc.1 + dget sigs.weights "port_match" 0.15,
       acc.2 ++ ["Port: " ++ toString port ++ " is listening (remote access port)"])
    else acc) ((0 : ℚ), ([] : List String))
  (min r.1 1, r.2)

/-- `VMRemoteDetector._check_session` (detector.py lines 101-119).
Note the evidence string interpolates the already-lowercased session name,
exactly as the source does. -/
def check_session (sigs : SignatureSet) (session_data : SessionData) : ℚ × List String :=
  let session_keywords := sigs.remote_indicators.session_keywords
  let session_name := lowerStr session_data.session_name
  let ssh_connection := session_data.ssh_connection
  let r := session_keywords.foldl (fun acc keyword =>
    if strContains keyword session_name then
      (acc.1 + dget sigs.weights "session_match" 0.3,
       acc.2 ++ ["Session: " ++ session_name ++ " matches remote session pattern"])
    else acc) ((0 : ℚ), ([] : List String))
  let r :=
    if ssh_connection then
      (r.1 + dget sigs.weights "session_match" 0.3,
       r.2 ++ ["Session: SSH connection detected"])
    else r
  (min r.1 1, r.2)

/-- The hard-coded virtual-GPU keyword list of `_check_gpu_artifacts`. -/
def vm_gpu_keywords : List String := ["vmware", "virtualbox", "virtual", "qxl", "vbox", "cirrus"]

/-- `VMRemoteDetector._check_gpu_artifacts` (detector.py lines 121-157).
`is_windows` models `platform.system().lower() == 'windows'`; each entry of
`devices` is the device-name string the source derives from the device
value (`str(device)` or `device["name"]`). -/
def check_gpu_artifacts (weights : List (String × ℚ)) (is_windows : Bool)
    (gpu_data : GpuData) : ℚ × List String :=
  let r := gpu_data.devices.foldl (fun acc device =>
    let device_name := lowerStr device
    vm_gpu_keywords.foldl (fun acc keyword =>
      if strContains keyword device_name then
        (acc.1 + dget weights "gpu_match" 0.15,
         acc.2 ++ ["GPU: " ++ keyword ++ " found in GPU name"])
      else acc) acc) ((0 : ℚ), ([] : List String))
  let r :=
    if is_windows &&
        (!gpu_data.nvidia_driver && !gpu_data.amd_driver && !gpu_data.intel_driver &&
         gpu_data.count == 0 && gpu_data.processes.length == 0 && gpu_data.devices.length == 0) then
      (r.1 + dget weights "gpu_match" 0.15 * 0.2,
       r.2 ++ ["GPU: No GPU indicators detected (weak VM indicator)"])
    else r
  (min r.1 1, r.2)

/-- First block of `_check_timing_anomalies` (detector.py lines 189-199):
the extreme-variance heuristic, applied to the running `(score, matches)`
accumulator. -/
def timing_variance_check (weights : List (String × ℚ)) (t : TimingData)
    (r : ℚ × List String) : ℚ × List String :=
  if t.variance > 3 ∧ t.avg_time > 0 then
    if t.min_time > 0 ∧ t.max_time > 0 then
      let time_range_ratio := if t.avg_time > 0 then (t.max_time - t.min_time) / t.avg_time else 0
      if time_range_ratio > 2.5 then
        (r.1 + dget weights "timing_match" 0.15 * 0.6,
         r.2 ++ ["Timing: Extremely high variance detected (" ++ toString t.variance ++ ") - possible VM"])
      else r
    else r
  else r

/-- Second block of `_check_timing_anomalies` (detector.py lines 201-210):
the unusual-CPU-count heuristic. -/
def timing_cpu_count_check (weights : List (String × ℚ)) (t : TimingData)
    (r : ℚ × List String) : ℚ × List String :=
  if t.odd_cpu_count ∧ t.cpu_count > 1 then
    if ¬ ([1, 2, 4, 6, 8, 12, 16, 24, 32] : List ℚ).contains t.cpu_count then
      (r.1 + dget weights "timing_match" 0.15 * 0.5,
       r.2 ++ ["Timing: Unusual CPU count detected (" ++ toString t.cpu_count ++ " cores) - possible VM"])
    else r
  else r

/-- Third block of `_check_timing_anomalies` (detector.py lines 212-222):
the fixed-CPU-frequency heuristic. -/
def timing_freq_check (weights : List (String × ℚ)) (t : TimingData)
    (r : ℚ × List String) : ℚ × List String :=
  if t.cpu_freq_current > 0 ∧ t.cpu_freq_min > 0 ∧ t.cpu_freq_max > 0 then
    let freq_range := t.cpu_freq_max - t.cpu_freq_min
    if freq_range < 10 then
      (r.1 + dget weights "timing_match" 0.15 * 0.5,
       r.2 ++ ["Timing: Fixed CPU frequency detected (" ++ toString t.cpu_freq_current ++
         " MHz, range: " ++ toString freq_range ++ " MHz) - possible VM"])
    else r
  else r

/-- `VMRemoteDetector._check_timing_anomalies` (detector.py lines 159-224):
the three heuristic blocks applied in source order to the accumulator,
then the clamp.  Float formatting in the evidence strings is modelled by
`toString`. -/
def check_timing_anomalies (weights : List (String × ℚ)) (t : TimingData) : ℚ × List String :=
  let r := timing_freq_check weights t
    (timing_cpu_count_check weights t (timing_variance_check weights t (0, [])))
  (min r.1 1, r.2)

/-- `VMRemoteDetector.detect_vm` (detector.py lines 226-265): sum the four
checker scores, add the timing checker only when the running total already
exceeds 0.2, clamp at 1. -/
def detect_vm (sigs : SignatureSet) (is_windows : Bool) (s : SystemData) : ℚ × List String :=
  let bios := check_bios_keywords sigs s.bios
  let mac := check_mac_addresses sigs s.network.mac_addresses
  let proc := check_processes sigs.weights sigs.vm_indicators.processes s.processes
  let gpu := check_gpu_artifacts sigs.weights is_windows s.gpu
  let total0 := bios.1 + mac.1 + proc.1 + gpu.1
  let matches0 := bios.2 ++ mac.2 ++ proc.2 ++ gpu.2
  let r :=
    if total0 > 0.2 then
      let timing := check_timing_anomalies sigs.weights s.timing
      (total0 + timing.1, matches0 ++ timing.2)
    else (total0, matches0)
  (min r.1 1, r.2)

/-- `VMRemoteDetector.detect_remote_access` (detector.py lines 267-292). -/
def detect_remote_access (sigs : SignatureSet) (s : SystemData) : ℚ × List String :=
  let proc := check_processes sigs.weights sigs.remote_indicators.processes s.processes
  let ports := check_ports sigs s.network.listening_ports
  let sess := check_session sigs s.session
  (min (proc.1 + ports.1 + sess.1) 1, proc.2 ++ ports.2 ++ sess.2)

/-- The browser scan of `detect_screen_share` (detector.py lines 307-314):
one pass over the snapshot process names, collecting (as deduplicating
insertion-ordered sets) the lowercased signature browsers that appear
verbatim (`found_browsers`, first component) and those that appear with the
`_screenshare` suffix (`found_browser_screenshare`, second component). -/
def browser_scan (browser_processes : List String) (processes : List String) :
    List String × List String :=
  processes.foldl (fun acc process_name =>
    browser_processes.foldl (fun acc browser =>
      if lowerStr browser == process_name then
        (if acc.1.contains (lowerStr browser) then acc.1 else acc.1 ++ [lowerStr browser], acc.2)
      else if lowerStr browser ++ "_screenshare" == process_name then
        (acc.1, if acc.2.contains (lowerStr browser) then acc.2 else acc.2 ++ [lowerStr browser])
      else acc) acc) (([] : List String), ([] : List String))

/-- `VMRemoteDetector.detect_screen_share` (detector.py lines 294-346):
dedicated screen-share processes first, then exactly one of the three
browser evidence tiers via the `if/elif/elif` chain. -/
def detect_screen_share (sigs : SignatureSet) (s : SystemData) : ℚ × List String :=
  let base := check_processes sigs.weights sigs.screen_share_indicators.processes s.processes
  let scan := browser_scan sigs.screen_share_indicators.browser_processes s.processes
  let found_browsers := scan.1
  let found_browser_screenshare := scan.2
  let active_meeting_browsers := s.browser_connections.active_meeting_browsers
  let detected_domains := s.browser_connections.detected_meeting_domains
  let connection_counts := s.browser_connections.browser_connection_counts
  if active_meeting_browsers ≠ [] then
    (min (base.1 + 0.25) 1,
     base.2 ++ active_meeting_browsers.map (fun browser =>
       if detected_domains ≠ [] ∧ detected_domains.contains "high_connection_count" then
         "High connection count in " ++ browser ++ " (" ++
           toString (dget connection_counts browser 0) ++ " connections - possible meeting)"
       else
         "High connection count in " ++ browser ++ " (" ++
           toString (dget connection_counts browser 0) ++ " connections - possible meeting)"))
  else if found_browser_screenshare ≠ [] then
    (min (base.1 + min (0.25 * (found_browser_screenshare.length : ℚ)) 0.35) 1,
     base.2 ++ found_browser_screenshare.map (fun browser =>
       "Browser meeting detected: " ++ browser ++ " (Google Meet/Zoom/etc)"))
  else if found_browsers ≠ [] then
    (min (base.1 + min (0.1 * (found_browsers.length : ℚ)) 0.2) 1,
     base.2 ++ found_browsers.map (fun browser =>
       "Browser detected: " ++ browser ++ " (may indicate meeting/screen sharing)"))
  else (min base.1 1, base.2)

/-- The result dictionary built by `VMRemoteDetector.analyze`
(detector.py lines 348-374); the echoed `system_data` entry is not repeated
here. -/
structure DetectionResult where
  vm_detected : Bool
  vm_confidence : ℚ
  vm_matches : List String
  remote_access_detected : Bool
  remote_access_confidence : ℚ
  remote_access_matches : List String
  screen_share_detected : Bool
  screen_share_confidence : ℚ
  screen_share_matches : List String
deriving DecidableEq

/-- `VMRemoteDetector.analyze` (detector.py lines 348-374) on a supplied
snapshot (when called with `None` the source first collects one; the
collector is outside this model). -/
def analyze (sigs : SignatureSet) (is_windows : Bool) (s : SystemData) : DetectionResult :=
  let vm := detect_vm sigs is_windows s
  let remote := detect_remote_access sigs s
  let screen := detect_screen_share sigs s
  let vm_threshold := dget sigs.thresholds "vm_confidence" 0.5
  let remote_threshold := dget sigs.thresholds "remote_confidence" 0.4
  let screen_threshold := dget sigs.thresholds "screen_share_confidence" 0.3
  { vm_detected := decide (vm.1 ≥ vm_threshold)
    vm_confidence := vm.1
    vm_matches := vm.2
    remote_access_detected := decide (remote.1 ≥ remote_threshold)
    remote_access_confidence := remote.1
    remote_access_matches := remote.2
    screen_share_detected := decide (screen.1 ≥ screen_threshold)
    screen_share_confidence := screen.1
    screen_share_matches := screen.2 }

/-! The behavioral analyzer of `behavioral_analyzer.py`: the persisted
history entries, the size-bounded append, and `analyze_patterns`. -/

/-- The trimmed projection of a detection result stored in the history
(`BehavioralAnalyzer.add_detection`, behavioral_analyzer.py lines 45-54). -/
structure HistoryEntry where
  timestamp : String := ""
  vm_detected : Bool := false
  vm_confidence : ℚ := 0
  remote_access_detected : Bool := false
  remote_access_confidence : ℚ := 0
  screen_share_detected : Bool := false
  screen_share_confidence : ℚ := 0
  metrics : List (String × ℚ) := []
deriving DecidableEq

/-- Builds the history entry from a detection result; `timestamp` stands for
`datetime.now().isoformat()` and `metrics` for the snapshot's metrics dict,
both ambient inputs of `add_detection`. -/
def mk_history_entry (timestamp : String) (r : DetectionResult)
    (metrics : List (String × ℚ)) : HistoryEntry :=
  { timestamp := timestamp
    vm_detected := r.vm_detected
    vm_confidence := r.vm_confidence
    remote_access_detected := r.remote_access_detected
    remote_access_confidence := r.remote_access_confidence
    screen_share_detected := r.screen_share_detected
    screen_share_confidence := r.screen_share_confidence
    metrics := metrics }

/-- Python's `l[-n:]` slice: the whole list when `n = 0`, otherwise the last
`n` elements. -/
def py_slice_last {α : Type} (n : Nat) (l : List α) : List α :=
  if n = 0 then l else l.drop (l.length - n)

/-- The in-memory trimming performed by `BehavioralAnalyzer._save_history`
(behavioral_analyzer.py line 37): `self.history = self.history[-self.max_history:]`.
This line runs before the file write, so it applies even when persisting
fails (the `IOError` handler only skips the write). -/
def save_history_trim (max_history : Nat) (history : List HistoryEntry) : List HistoryEntry :=
  py_slice_last max_history history

/-- `BehavioralAnalyzer.add_detection` (behavioral_analyzer.py lines 43-56):
append the new entry, then trim to the most recent `max_history` entries. -/
def add_detection (max_history : Nat) (history : List HistoryEntry)
    (entry : HistoryEntry) : List HistoryEntry :=
  save_history_trim max_history (history ++ [entry])

/-- The anomaly events `analyze_patterns` can append, tagged by the `type`
field of the dicts built in behavioral_analyzer.py lines 92-149. -/
inductive Anomaly where
  | sudden_vm (timestamp : String) (confidence : ℚ)
  | sudden_remote (timestamp : String) (confidence : ℚ)
  | sudden_screen (timestamp : String) (confidence : ℚ)
  | sustained_vm_high (count : Nat) (percentage : ℚ)
  | high_cpu (average : ℚ)
  | high_memory (average : ℚ)
deriving DecidableEq

/-- The full-analysis dictionary of `analyze_patterns`. -/
structure PatternAnalysis where
  total_detections : Nat
  vm_detections : Nat
  remote_detections : Nat
  screen_share_detections : Nat
  avg_vm_confidence : ℚ
  avg_remote_confidence : ℚ
  avg_screen_share_confidence : ℚ
  anomalies : List Anomaly
deriving DecidableEq

/-- `analyze_patterns` returns either the short insufficient-data dictionary
or the full analysis. -/
inductive PatternResult where
  | insufficient (message : String)
  | analysis (a : PatternAnalysis)
deriving DecidableEq

/-- Python `sum` over a list of rationals. -/
def qsum (l : List ℚ) : ℚ := l.foldl (· + ·) 0

/-- The sudden-transition block of `analyze_patterns`
(behavioral_analyzer.py lines 86-115): for the most recent pair, one event
per category whose `detected` flag flips from false to true, in source
order (vm, remote access, screen share). -/
def sudden_anomalies (previous recent : HistoryEntry) : List Anomaly :=
  (if ¬ previous.vm_detected ∧ recent.vm_detected then
    [Anomaly.sudden_vm recent.timestamp recent.vm_confidence] else []) ++
  (if ¬ previous.remote_access_detected ∧ recent.remote_access_detected then
    [Anomaly.sudden_remote recent.timestamp recent.remote_access_confidence] else []) ++
  (if ¬ previous.screen_share_detected ∧ recent.screen_share_detected then
    [Anomaly.sudden_screen recent.timestamp recent.screen_share_confidence] else [])

/-- The consistent-high-confidence block of `analyze_patterns`
(behavioral_analyzer.py lines 117-125). -/
def sustained_anomalies (history : List HistoryEntry) : List Anomaly :=
  let vm_confidences := history.map (fun h => h.vm_confidence)
  let high_vm_confidence_count := (vm_confidences.filter (fun c => c > 0.7)).length
  if (high_vm_confidence_count : ℚ) > (history.length : ℚ) * 0.8 then
    [Anomaly.sustained_vm_high high_vm_confidence_count
      ((high_vm_confidence_count : ℚ) / (history.length : ℚ) * 100)]
  else []

/-- The metric-anomaly block of `analyze_patterns`
(behavioral_analyzer.py lines 127-149): only with at least 5 entries, over
the metrics of the last 5; a metric value enters the averaged list only when
`m.get(key)` is truthy (present and nonzero). -/
def metric_anomalies (history : List HistoryEntry) : List Anomaly :=
  if 5 ≤ history.length then
    let recent_metrics := (history.drop (history.length - 5)).map (fun h => h.metrics)
    let cpu_percentages := recent_metrics.filterMap (fun m =>
      match m.lookup "cpu_percent" with
      | some v => if v ≠ 0 then some v else none
      | none => none)
    let memory_percentages := recent_metrics.filterMap (fun m =>
      match m.lookup "memory_percent" with
      | some v => if v ≠ 0 then some v else none
      | none => none)
    (if cpu_percentages ≠ [] ∧ qsum cpu_percentages / (cpu_percentages.length : ℚ) > 90 then
      [Anomaly.high_cpu (qsum cpu_percentages / (cpu_percentages.length : ℚ))] else []) ++
    (if memory_percentages ≠ [] ∧ qsum memory_percentages / (memory_percentages.length : ℚ) > 90 then
      [Anomaly.high_memory (qsum memory_percentages / (memory_percentages.length : ℚ))] else [])
  else []

/-- `BehavioralAnalyzer.analyze_patterns` (behavioral_analyzer.py lines
58-151).  Fewer than two entries yields the insufficient-data dictionary;
otherwise `recent`/`previous` are `history[-1]`/`history[-2]` (the first two
elements of the reversed history) and the anomalies appear in source order:
sudden transitions, sustained high confidence, metric spikes. -/
def analyze_patterns (history : List HistoryEntry) : PatternResult :=
  match history.reverse with
  | recent :: previous :: _ =>
    let vm_confidences := history.map (fun h => h.vm_confidence)
    let remote_confidences := history.map (fun h => h.remote_access_confidence)
    let screen_confidences := history.map (fun h => h.screen_share_confidence)
    PatternResult.analysis
      { total_detections := history.length
        vm_detections := (history.filter (fun h => h.vm_detected)).length
        remote_detections := (history.filter (fun h => h.remote_access_detected)).length
        screen_share_detections := (history.filter (fun h => h.screen_share_detected)).length
        avg_vm_confidence :=
          if vm_confidences ≠ [] then qsum vm_confidences / (vm_confidences.length : ℚ) else 0
        avg_remote_confidence :=
          if remote_confidences ≠ [] then qsum remote_confidences / (remote_confidences.length : ℚ) else 0
        avg_screen_share_confidence :=
          if screen_confidences ≠ [] then qsum screen_confidences / (screen_confidences.length : ℚ) else 0
        anomalies :=
          sudden_anomalies previous recent ++ sustained_anomalies history ++
            metric_anomalies history }
  | _ => PatternResult.insufficient "Not enough history data for pattern analysis"

/-! A dynamic model of the snapshot for the failure-semantics claims.
`PyVal` is the JSON-like value universe a snapshot dict can hold; the
helpers below model the Python operations the checkers apply to snapshot
fields, returning `Except` exactly where CPython raises
(`AttributeError` on `.get` of a non-dict, `TypeError` on iterating or
`set()`-ing a non-iterable, on unhashable set members, and on ordering
comparisons or arithmetic between non-numbers).  Signature data is taken
from the typed `SignatureSet` (the claims quantify over snapshots, with
well-formed signatures). -/

inductive PyVal where
  | none
  | bool (b : Bool)
  | num (q : ℚ)
  | str (s : String)
  | list (l : List PyVal)
  | dict (d : List (String × PyVal))

/-- Key lookup in a dict value (first binding wins, as in a Python dict
built without key repetition). -/
def pyLookup (key : String) : List (String × PyVal) → Option PyVal
  | [] => Option.none
  | p :: rest => if p.1 == key then some p.2 else pyLookup key rest

/-- Python `v.get(key, dflt)`: raises `AttributeError` unless `v` is a dict. -/
def pyGet (v : PyVal) (key : String) (dflt : PyVal) : Except String PyVal :=
  match v with
  | .dict d => .ok ((pyLookup key d).getD dflt)
  | _ => .error "AttributeError: get"

/-- Python `str(v)` — total; container rendering is abbreviated, which is
sound here because no claim inspects the text of an evidence string built
from a container. -/
def pyStr : PyVal → String
  | .none => "None"
  | .bool b => if b then "True" else "False"
  | .num q => toString q
  | .str s => s
  | .list _ => "[...]"
  | .dict _ => "\x7b...\x7d"

/-- Python truth value of `v`. -/
def pyTruthy : PyVal → Bool
  | .none => false
  | .bool b => b
  | .num q => decide (q ≠ 0)
  | .str s => decide (s ≠ "")
  | .list [] => false
  | .list (_ :: _) => true
  | .dict [] => false
  | .dict (_ :: _) => true

/-- Python iteration `for x in v`: lists yield elements, strings their
characters, dicts their keys; anything else raises `TypeError`. -/
def pyIter : PyVal → Except String (List PyVal)
  | .list l => .ok l
  | .str s => .ok (s.data.map (fun c => .str (String.mk [c])))
  | .dict d => .ok (d.map (fun p => .str p.1))
  | _ => .error "TypeError: not iterable"

/-- Whether a value is hashable (usable as a set member / dict probe). -/
def pyHashable : PyVal → Bool
  | .list _ => false
  | .dict _ => false
  | _ => true

/-- Equality test between hashable (atomic) values, as Python `==`;
distinct types compare unequal without raising.  Python's numeric
`True == 1` identification is modelled. -/
def pyEqAtom : PyVal → PyVal → Bool
  | .none, .none => true
  | .bool a, .bool b => a == b
  | .bool a, .num b => (if a then (1 : ℚ) else 0) == b
  | .num a, .bool b => a == (if b then (1 : ℚ) else 0)
  | .num a, .num b => a == b
  | .str a, .str b => a == b
  | _, _ => false

/-- Python `set(v)`: iterate, require every member hashable, deduplicate. -/
def pySet (v : PyVal) : Except String (List PyVal) := do
  let l ← pyIter v
  if l.all pyHashable then
    .ok (l.foldl (fun acc x => if acc.any (pyEqAtom x) then acc else acc ++ [x]) [])
  else
    .error "TypeError: unhashable type"

/-- Python `x in s` for a set `s` of hashables: raises when `x` itself is
unhashable. -/
def pyMemSet (x : PyVal) (s : List PyVal) : Except String Bool :=
  if pyHashable x then .ok (s.any (pyEqAtom x)) else .error "TypeError: unhashable type"

/-- Interpret a value as a number for ordering comparisons and arithmetic
(`TypeError` otherwise); Python booleans are integers. -/
def pyToNum : PyVal → Except String ℚ
  | .num q => .ok q
  | .bool b => .ok (if b then 1 else 0)
  | _ => .error "TypeError: unsupported operand type"

/-- `_check_bios_keywords` on a dynamic `bios` field: `str(...)` coercions
never raise, so only a non-dict `bios` value raises. -/
def check_bios_keywords_dyn (sigs : SignatureSet) (bios_data : PyVal) :
    Except String (ℚ × List String) := do
  let keywords := sigs.vm_indicators.bios_keywords
  let manufacturer := lowerStr (pyStr ((← pyGet bios_data "manufacturer" (.str ""))))
  let product := lowerStr (pyStr ((← pyGet bios_data "product" (.str ""))))
  let cpu_info := lowerStr (pyStr ((← pyGet bios_data "cpu_info" (.str ""))))
  let r := keywords.foldl (fun acc keyword =>
    let acc1 :=
      if strContains keyword manufacturer || strContains keyword product then
        (acc.1 + dget sigs.weights "bios_match" 0.4,
         acc.2 ++ ["BIOS: " ++ keyword ++ " found in manufacturer/product"])
      else acc
    if strContains keyword cpu_info then
      (acc1.1 + dget sigs.weights "cpu_match" 0.2,
       acc1.2 ++ ["CPU: " ++ keyword ++ " found in CPU info"])
    else acc1) ((0 : ℚ), ([] : List String))
  .ok (min r.1 1, r.2)

/-- `_check_mac_addresses` on a dynamic `mac_addresses` value: iterating a
non-iterable raises, and `mac.lower()` raises on a non-string element. -/
def check_mac_addresses_dyn (sigs : SignatureSet) (mac_addresses : PyVal) :
    Except String (ℚ × List String) := do
  let vm_mac_vendors := sigs.vm_indicators.mac_vendors
  let macs ← pyIter mac_addresses
  let r ← macs.foldlM (fun (acc : ℚ × List String) mac => do
    match mac with
    | .str m =>
      let mac_lower := replaceColonDash (lowerStr m)
      .ok (vm_mac_vendors.foldl (fun acc vendor =>
        let vendor_normalized := replaceColonDash (lowerStr vendor)
        if strStarts mac_lower vendor_normalized then
          (acc.1 + dget sigs.weights "mac_match" 0.3,
           acc.2 ++ ["MAC: " ++ m ++ " matches VM vendor " ++ vendor])
        else acc) acc)
    | _ => .error "AttributeError: lower") ((0 : ℚ), ([] : List String))
  .ok (min r.1 1, r.2)

/-- `_check_processes` on a dynamic snapshot `process_list`: `set(...)` is
built first and raises on a non-iterable or unhashable members. -/
def check_processes_dyn (weights : List (String × ℚ)) (processes : List String)
    (process_list : PyVal) : Except String (ℚ × List String) := do
  let process_set ← pySet process_list
  let r := processes.foldl (fun acc proc =>
    if process_set.any (pyEqAtom (.str proc)) then
      (acc.1 + dget weights "process_match" 0.25,
       acc.2 ++ ["Process: " ++ proc ++ " is running"])
    else acc) ((0 : ℚ), ([] : List String))
  .ok (min r.1 1, r.2)

/-- `_check_ports` on a dynamic `listening_ports` value. -/
def check_ports_dyn (sigs : SignatureSet) (listening_ports : PyVal) :
    Except String (ℚ × List String) := do
  let remote_ports := sigs.remote_indicators.ports
  let port_set ← pySet listening_ports
  let r := remote_ports.foldl (fun acc port =>
    if port_set.any (pyEqAtom (.num (port : ℚ))) then
      (acc.1 + dget sigs.weights "port_match" 0.15,
       acc.2 ++ ["Port: " ++ toString port ++ " is listening (remote access port)"])
    else acc) ((0 : ℚ), ([] : List String))
  .ok (min r.1 1, r.2)

/-- `_check_session` on a dynamic `session` field. -/
def check_session_dyn (sigs : SignatureSet) (session_data : PyVal) :
    Except String (ℚ × List String) := do
  let session_keywords := sigs.remote_indicators.session_keywords
  let session_name := lowerStr (pyStr ((← pyGet session_data "session_name" (.str ""))))
  let ssh_connection ← pyGet session_data "ssh_connection" (.bool false)
  let r := session_keywords.foldl (fun acc keyword =>
    if strContains keyword session_name then
      (acc.1 + dget sigs.weights "session_match" 0.3,
       acc.2 ++ ["Session: " ++ session_name ++ " matches remote session pattern"])
    else acc) ((0 : ℚ), ([] : List String))
  let r :=
    if pyTruthy ssh_connection then
      (r.1 + dget sigs.weights "session_match" 0.3,
       r.2 ++ ["Session: SSH connection detected"])
    else r
  .ok (min r.1 1, r.2)

/-- `_check_gpu_artifacts` on a dynamic `gpu` field.  The Windows branch
evaluates its conjuncts left to right with short-circuiting, so `len(...)`
of the process and device values only raises when the driver flags and
count conjuncts all passed. -/
def check_gpu_artifacts_dyn (weights : List (String × ℚ)) (is_windows : Bool)
    (gpu_data : PyVal) : Except String (ℚ × List String) := do
  let gpu_count ← pyGet gpu_data "count" (.num 0)
  let gpu_devices_v ← pyGet gpu_data "devices" (.list [])
  let gpu_devices ← pyIter gpu_devices_v
  let r ← gpu_devices.foldlM (fun (acc : ℚ × List String) device => do
    let device_name ←
      match device with
      | .dict _ => do .ok (lowerStr (pyStr ((← pyGet device "name" (.str "")))))
      | _ => .ok (lowerStr (pyStr device))
    .ok (vm_gpu_keywords.foldl (fun acc keyword =>
      if strContains keyword device_name then
        (acc.1 + dget weights "gpu_match" 0.15,
         acc.2 ++ ["GPU: " ++ keyword ++ " found in GPU name"])
      else acc) acc)) ((0 : ℚ), ([] : List String))
  let r ←
    if is_windows then do
      let nvidia_driver ← pyGet gpu_data "nvidia_driver" (.bool false)
      let amd_driver ← pyGet gpu_data "amd_driver" (.bool false)
      let intel_driver ← pyGet gpu_data "intel_driver" (.bool false)
      let gpu_processes ← pyGet gpu_data "processes" (.list [])
      if !pyTruthy nvidia_driver && !pyTruthy amd_driver && !pyTruthy intel_driver &&
          pyEqAtom gpu_count (.num 0) then do
        let nproc ← pyIter gpu_processes
        if nproc.length == 0 && gpu_devices.length == 0 then
          .ok (r.1 + dget weights "gpu_match" 0.15 * 0.2,
               r.2 ++ ["GPU: No GPU indicators detected (weak VM indicator)"])
        else .ok r
      else .ok r
    else .ok r
  .ok (min r.1 1, r.2)

/-- `_check_timing_anomalies` on a dynamic `timing` field: ordering
comparisons raise on non-numeric values, respecting Python's left-to-right
short-circuit order. -/
def check_timing_anomalies_dyn (weights : List (String × ℚ)) (timing_data : PyVal) :
    Except String (ℚ × List String) := do
  let variance ← pyGet timing_data "variance" (.num 0)
  let _std_dev ← pyGet timing_data "std_dev" (.num 0)
  let avg_time ← pyGet timing_data "avg_time" (.num 0)
  let min_time ← pyGet timing_data "min_time" (.num 0)
  let max_time ← pyGet timing_data "max_time" (.num 0)
  let r : ℚ × List String := (0, [])
  let r ←
    if (← pyToNum variance) > 3 then do
      if (← pyToNum avg_time) > 0 then do
        if (← pyToNum min_time) > 0 then do
          if (← pyToNum max_time) > 0 then do
            let avg ← pyToNum avg_time
            let maxN ← pyToNum max_time
            let minN ← pyToNum min_time
            let ratio := if avg > 0 then (maxN - minN) / avg else 0
            if ratio > 2.5 then
              .ok (r.1 + dget weights "timing_match" 0.15 * 0.6,
                   r.2 ++ ["Timing: Extremely high variance detected (" ++
                     pyStr variance ++ ") - possible VM"])
            else .ok r
          else .ok r
        else .ok r
      else .ok r
    else .ok r
  let odd_cpu_count ← pyGet timing_data "odd_cpu_count" (.bool false)
  let cpu_count ← pyGet timing_data "cpu_count" (.num 0)
  let r ←
    if pyTruthy odd_cpu_count then do
      if (← pyToNum cpu_count) > 1 then
        if ¬ (([1, 2, 4, 6, 8, 12, 16, 24, 32] : List ℚ).any
            (fun n => pyEqAtom cpu_count (.num n))) then
          .ok (r.1 + dget weights "timing_match" 0.15 * 0.5,
               r.2 ++ ["Timing: Unusual CPU count detected (" ++ pyStr cpu_count ++
                 " cores) - possible VM"])
        else .ok r
      else .ok r
    else .ok r
  let cpu_freq ← pyGet timing_data "cpu_freq_current" (.num 0)
  let cpu_freq_min ← pyGet timing_data "cpu_freq_min" (.num 0)
  let cpu_freq_max ← pyGet timing_data "cpu_freq_max" (.num 0)
  let r ←
    if (← pyToNum cpu_freq) > 0 then do
      if (← pyToNum cpu_freq_min) > 0 then do
        if (← pyToNum cpu_freq_max) > 0 then do
          let freq_range := (← pyToNum cpu_freq_max) - (← pyToNum cpu_freq_min)
          if freq_range < 10 then
            .ok (r.1 + dget weights "timing_match" 0.15 * 0.5,
                 r.2 ++ ["Timing: Fixed CPU frequency detected (" ++ pyStr cpu_freq ++
                   " MHz, range: " ++ toString freq_range ++ " MHz) - possible VM"])
          else .ok r
        else .ok r
      else .ok r
    else .ok r
  .ok (min r.1 1, r.2)

/-- `detect_vm` on a dynamic snapshot dict: the field accesses and checker
calls happen in source order, and any raise aborts the whole computation —
the source has no per-checker exception handling. -/
def detect_vm_dyn (sigs : SignatureSet) (is_windows : Bool) (system_data : PyVal) :
    Except String (ℚ × List String) := do
  let bios ← check_bios_keywords_dyn sigs (← pyGet system_data "bios" (.dict []))
  let network ← pyGet system_data "network" (.dict [])
  let mac ← check_mac_addresses_dyn sigs (← pyGet network "mac_addresses" (.list []))
  let proc ← check_processes_dyn sigs.weights sigs.vm_indicators.processes
    (← pyGet system_data "processes" (.list []))
  let gpu ← check_gpu_artifacts_dyn sigs.weights is_windows
    (← pyGet system_data "gpu" (.dict []))
  let total0 := bios.1 + mac.1 + proc.1 + gpu.1
  let matches0 := bios.2 ++ mac.2 ++ proc.2 ++ gpu.2
  let r ←
    if total0 > 0.2 then do
      let timing ← check_timing_anomalies_dyn sigs.weights
        (← pyGet system_data "timing" (.dict []))
      .ok (total0 + timing.1, matches0 ++ timing.2)
    else .ok (total0, matches0)
  .ok (min r.1 1, r.2)

/-- `detect_remote_access` on a dynamic snapshot dict. -/
def detect_remote_access_dyn (sigs : SignatureSet) (system_data : PyVal) :
    Except String (ℚ × List String) := do
  let proc ← check_processes_dyn sigs.weights sigs.remote_indicators.processes
    (← pyGet system_data "processes" (.list []))
  let network ← pyGet system_data "network" (.dict [])
  let ports ← check_ports_dyn sigs (← pyGet network "listening_ports" (.list []))
  let sess ← check_session_dyn sigs (← pyGet system_data "session" (.dict []))
  .ok (min (proc.1 + ports.1 + sess.1) 1, proc.2 ++ ports.2 ++ sess.2)

/-- `detect_screen_share` on a dynamic snapshot dict. -/
def detect_screen_share_dyn (sigs : SignatureSet) (system_data : PyVal) :
    Except String (ℚ × List String) := do
  let base ← check_processes_dyn sigs.weights sigs.screen_share_indicators.processes
    (← pyGet system_data "processes" (.list []))
  let browser_processes := sigs.screen_share_indicators.browser_processes
  let procs ← pyIter (← pyGet system_data "processes" (.list []))
  let scan := procs.foldl (fun (acc : List String × List String) process_name =>
    browser_processes.foldl (fun acc browser =>
      if pyEqAtom (.str (lowerStr browser)) process_name then
        (if acc.1.contains (lowerStr browser) then acc.1 else acc.1 ++ [lowerStr browser], acc.2)
      else if pyEqAtom (.str (lowerStr browser ++ "_screenshare")) process_name then
        (acc.1, if acc.2.contains (lowerStr browser) then acc.2 else acc.2 ++ [lowerStr browser])
      else acc) acc) (([] : List String), ([] : List String))
  let browser_conns ← pyGet system_data "browser_connections" (.dict [])
  let active_meeting_browsers ← pyGet browser_conns "active_meeting_browsers" (.list [])
  let detected_domains ← pyGet browser_conns "detected_meeting_domains" (.list [])
  let connection_counts ← pyGet browser_conns "browser_connection_counts" (.dict [])
  if pyTruthy active_meeting_browsers then do
    let browsers ← pyIter active_meeting_browsers
    let evid ← browsers.foldlM (fun (acc : List String) browser => do
      let conn_count ←
        match browser with
        | .list _ => .error "TypeError: unhashable type"
        | .dict _ => .error "TypeError: unhashable type"
        | .str b => pyGet connection_counts b (.num 0)
        | _ => .ok (.num 0)
      if pyTruthy detected_domains then do
        let mem ← pyMemSet (.str "high_connection_count") (← pyIter detected_domains)
        if mem then
          .ok (acc ++ ["High connection count in " ++ pyStr browser ++ " (" ++
            pyStr conn_count ++ " connections - possible meeting)"])
        else
          .ok (acc ++ ["High connection count in " ++ pyStr browser ++ " (" ++
            pyStr conn_count ++ " connections - possible meeting)"])
      else
        .ok (acc ++ ["High connection count in " ++ pyStr browser ++ " (" ++
          pyStr conn_count ++ " connections - possible meeting)"])) []
    .ok (min (base.1 + 0.25) 1, base.2 ++ evid)
  else if scan.2 ≠ [] then
    .ok (min (base.1 + min (0.25 * (scan.2.length : ℚ)) 0.35) 1,
         base.2 ++ scan.2.map (fun browser =>
           "Browser meeting detected: " ++ browser ++ " (Google Meet/Zoom/etc)"))
  else if scan.1 ≠ [] then
    .ok (min (base.1 + min (0.1 * (scan.1.length : ℚ)) 0.2) 1,
         base.2 ++ scan.1.map (fun browser =>
           "Browser detected: " ++ browser ++ " (may indicate meeting/screen sharing)"))
  else .ok (min base.1 1, base.2)

/-- `VMRemoteDetector.analyze` on a dynamic snapshot dict: the three
category detectors run in sequence with no exception handling around them,
so any checker failure propagates out of `analyze`. -/
def analyze_dyn (sigs : SignatureSet) (is_windows : Bool) (system_data : PyVal) :
    Except String DetectionResult := do
  let vm ← detect_vm_dyn sigs is_windows system_data
  let remote ← detect_remote_access_dyn sigs system_data
  let screen ← detect_screen_share_dyn sigs system_data
  let vm_threshold := dget sigs.thresholds "vm_confidence" 0.5
  let remote_threshold := dget sigs.thresholds "remote_confidence" 0.4
  let screen_threshold := dget sigs.thresholds "screen_share_confidence" 0.3
  .ok { vm_detected := decide (vm.1 ≥ vm_threshold)
        vm_confidence := vm.1
        vm_matches := vm.2
        remote_access_detected := decide (remote.1 ≥ remote_threshold)
        remote_access_confidence := remote.1
        remote_access_matches := remote.2
        screen_share_detected := decide (screen.1 ≥ screen_threshold)
        screen_share_confidence := screen.1
        screen_share_matches := screen.2 }

/-- Whether an `Except` computation finished without raising. -/
def exceptOk {ε α : Type} : Except ε α → Bool
  | .ok _ => true
  | .error _ => false

/-! Signature loading (`_load_signatures`, detector.py lines 16-26).
`SigSource` enumerates the possible outcomes of `open(filepath)` followed
by `json.load`: the file may be missing (`FileNotFoundError`), unreadable
(`OSError`, e.g. `PermissionError`), syntactically invalid
(`json.JSONDecodeError`), or parse to some JSON value. -/

inductive SigSource where
  | missing
  | unreadable
  | invalidJson
  | content (v : PyVal)

/-- `_get_default_signatures` (detector.py lines 28-36) as the JSON value it
returns. -/
def default_signatures_json : PyVal :=
  .dict [("vm_indicators", .dict [("bios_keywords", .list []), ("processes", .list [])]),
         ("remote_indicators", .dict [("processes", .list []), ("ports", .list [])]),
         ("screen_share_indicators", .dict [("processes", .list [])]),
         ("weights", .dict []),
         ("thresholds", .dict [])]

/-- `_load_signatures` (detector.py lines 16-26): only `FileNotFoundError`
and `json.JSONDecodeError` are caught (yielding the default signatures
whole); any other I/O error propagates, and a syntactically valid document
is returned as-is whatever its shape. -/
def load_signatures : SigSource → Except String PyVal
  | .missing => .ok default_signatures_json
  | .invalidJson => .ok default_signatures_json
  | .unreadable => .error "PermissionError"
  | .content v => .ok v

/-! Shared helper lemmas. -/

/-- Non-negativity of every weight in a signature configuration. -/
def weights_nonneg (w : List (String × ℚ)) : Prop := ∀ p ∈ w, 0 ≤ p.2

theorem dget_nonneg (w : List (String × ℚ)) (key : String) (dflt : ℚ)
    (hw : weights_nonneg w) (hd : 0 ≤ dflt) : 0 ≤ dget w key dflt := by
  induction w with
  | nil => simpa [dget, List.lookup]
  | cons p t ih =>
    rw [dget, List.lookup]
    split
    · exact hw p (List.mem_cons_self p t)
    · exact ih (fun q hq => hw q (List.mem_cons_of_mem p hq))

theorem foldl_fst_le {α : Type} (f : (ℚ × List String) → α → ℚ × List String)
    (hf : ∀ acc a, acc.1 ≤ (f acc a).1) :
    ∀ (l : List α) (acc : ℚ × List String), acc.1 ≤ (l.foldl f acc).1 := by
  intro l
  induction l with
  | nil => intro acc; simp
  | cons a t ih => intro acc; exact le_trans (hf acc a) (ih (f acc a))

/-! Claim C1: bound lemmas for every signal checker, then the category
bounds.  The lower bounds require every configured weight to be
non-negative — the counterexample below shows the claim fails without
that restriction, since the code clamps scores at 1 from above but never
at 0 from below. -/

theorem check_bios_keywords_bounds (sigs : SignatureSet) (b : BiosData)
    (hw : weights_nonneg sigs.weights) :
    0 ≤ (check_bios_keywords sigs b).1 ∧ (check_bios_keywords sigs b).1 ≤ 1 := by
  unfold check_bios_keywords
  refine ⟨le_min ?_ (by norm_num), min_le_right _ _⟩
  apply foldl_fst_le
  intro acc kw
  have h1 := dget_nonneg sigs.weights "bios_match" 0.4 hw (by norm_num)
  have h2 := dget_nonneg sigs.weights "cpu_match" 0.2 hw (by norm_num)
  split_ifs <;> simp <;> linarith

theorem check_mac_addresses_bounds (sigs : SignatureSet) (macs : List String)
    (hw : weights_nonneg sigs.weights) :
    0 ≤ (check_mac_addresses sigs macs).1 ∧ (check_mac_addresses sigs macs).1 ≤ 1 := by
  unfold check_mac_addresses
  refine ⟨le_min ?_ (by norm_num), min_le_right _ _⟩
  apply foldl_fst_le
  intro acc mac
  show acc.1 ≤ (List.foldl _ acc _).1
  apply foldl_fst_le
  intro acc2 vendor
  have h1 := dget_nonneg sigs.weights "mac_match" 0.3 hw (by norm_num)
  dsimp only
  split_ifs <;> simp <;> linarith

theorem check_processes_bounds (w : List (String × ℚ)) (procs snap : List String)
    (hw : weights_nonneg w) :
    0 ≤ (check_processes w procs snap).1 ∧ (check_processes w procs snap).1 ≤ 1 := by
  unfold check_processes
  refine ⟨le_min ?_ (by norm_num), min_le_right _ _⟩
  apply foldl_fst_le
  intro acc p
  have h1 := dget_nonneg w "process_match" 0.25 hw (by norm_num)
  split_ifs <;> simp <;> linarith

theorem check_ports_bounds (sigs : SignatureSet) (ports : List Int)
    (hw : weights_nonneg sigs.weights) :
    0 ≤ (check_ports sigs ports).1 ∧ (check_ports sigs ports).1 ≤ 1 := by
  unfold check_ports
  refine ⟨le_min ?_ (by norm_num), min_le_right _ _⟩
  apply foldl_fst_le
  intro acc p
  have h1 := dget_nonneg sigs.weights "port_match" 0.15 hw (by norm_num)
  split_ifs <;> simp <;> linarith

theorem check_session_bounds (sigs : SignatureSet) (sd : SessionData)
    (hw : weights_nonneg sigs.weights) :
    0 ≤ (check_session sigs sd).1 ∧ (check_session sigs sd).1 ≤ 1 := by
  have hw3 := dget_nonneg sigs.weights "session_match" 0.3 hw (by norm_num)
  have hfold : (0:ℚ) ≤ (sigs.remote_indicators.session_keywords.foldl (fun acc keyword =>
      if strContains keyword (lowerStr sd.session_name) then
        (acc.1 + dget sigs.weights "session_match" 0.3,
         acc.2 ++ ["Session: " ++ lowerStr sd.session_name ++ " matches remote session pattern"])
      else acc) ((0 : ℚ), ([] : List String))).1 := by
    apply foldl_fst_le
    intro acc kw
    split_ifs <;> simp <;> linarith
  unfold check_session
  dsimp only
  refine ⟨le_min ?_ (by norm_num), min_le_right _ _⟩
  split_ifs with h
  · dsimp only
    linarith
  · exact hfold

theorem check_gpu_artifacts_bounds (w : List (String × ℚ)) (isw : Bool) (g : GpuData)
    (hw : weights_nonneg w) :
    0 ≤ (check_gpu_artifacts w isw g).1 ∧ (check_gpu_artifacts w isw g).1 ≤ 1 := by
  have hw15 := dget_nonneg w "gpu_match" 0.15 hw (by norm_num)
  have hfold : (0:ℚ) ≤ (g.devices.foldl (fun acc device =>
      let device_name := lowerStr device
      vm_gpu_keywords.foldl (fun acc keyword =>
        if strContains keyword device_name then
          (acc.1 + dget w "gpu_match" 0.15,
           acc.2 ++ ["GPU: " ++ keyword ++ " found in GPU name"])
        else acc) acc) ((0 : ℚ), ([] : List String))).1 := by
    apply foldl_fst_le
    intro acc device
    show acc.1 ≤ (List.foldl _ acc _).1
    apply foldl_fst_le
    intro acc2 kw
    dsimp only
    split_ifs <;> simp <;> linarith
  unfold check_gpu_artifacts
  dsimp only
  refine ⟨le_min ?_ (by norm_num), min_le_right _ _⟩
  split_ifs with h
  · dsimp only
    linarith
  · exact hfold

theorem timing_variance_check_fst_le (w : List (String × ℚ)) (t : TimingData)
    (r : ℚ × List String) (hw : weights_nonneg w) :
    r.1 ≤ (timing_variance_check w t r).1 := by
  have h1 := dget_nonneg w "timing_match" 0.15 hw (by norm_num)
  unfold timing_variance_check
  dsimp only
  split_ifs <;> simp <;> linarith

theorem timing_cpu_count_check_fst_le (w : List (String × ℚ)) (t : TimingData)
    (r : ℚ × List String) (hw : weights_nonneg w) :
    r.1 ≤ (timing_cpu_count_check w t r).1 := by
  have h1 := dget_nonneg w "timing_match" 0.15 hw (by norm_num)
  unfold timing_cpu_count_check
  split_ifs <;> simp <;> linarith

theorem timing_freq_check_fst_le (w : List (String × ℚ)) (t : TimingData)
    (r : ℚ × List String) (hw : weights_nonneg w) :
    r.1 ≤ (timing_freq_check w t r).1 := by
  have h1 := dget_nonneg w "timing_match" 0.15 hw (by norm_num)
  unfold timing_freq_check
  dsimp only
  split_ifs <;> simp <;> linarith

theorem check_timing_anomalies_bounds (w : List (String × ℚ)) (t : TimingData)
    (hw : weights_nonneg w) :
    0 ≤ (check_timing_anomalies w t).1 ∧ (check_timing_anomalies w t).1 ≤ 1 := by
  have h1 := timing_variance_check_fst_le w t (0, []) hw
  have h2 := timing_cpu_count_check_fst_le w t (timing_variance_check w t (0, [])) hw
  have h3 := timing_freq_check_fst_le w t
    (timing_cpu_count_check w t (timing_variance_check w t (0, []))) hw
  unfold check_timing_anomalies
  dsimp only
  refine ⟨le_min ?_ (by norm_num), min_le_right _ _⟩
  simp only at h1
  linarith

theorem detect_vm_bounds (sigs : SignatureSet) (isw : Bool) (s : SystemData)
    (hw : weights_nonneg sigs.weights) :
    0 ≤ (detect_vm sigs isw s).1 ∧ (detect_vm sigs isw s).1 ≤ 1 := by
  obtain ⟨hb, _⟩ := check_bios_keywords_bounds sigs s.bios hw
  obtain ⟨hm, _⟩ := check_mac_addresses_bounds sigs s.network.mac_addresses hw
  obtain ⟨hp, _⟩ := check_processes_bounds sigs.weights sigs.vm_indicators.processes s.processes hw
  obtain ⟨hg, _⟩ := check_gpu_artifacts_bounds sigs.weights isw s.gpu hw
  obtain ⟨ht, _⟩ := check_timing_anomalies_bounds sigs.weights s.timing hw
  unfold detect_vm
  dsimp only
  refine ⟨le_min ?_ (by norm_num), min_le_right _ _⟩
  split_ifs with h <;> (try dsimp only) <;> linarith

theorem detect_remote_access_bounds (sigs : SignatureSet) (s : SystemData)
    (hw : weights_nonneg sigs.weights) :
    0 ≤ (detect_remote_access sigs s).1 ∧ (detect_remote_access sigs s).1 ≤ 1 := by
  obtain ⟨hp, _⟩ := check_processes_bounds sigs.weights sigs.remote_indicators.processes s.processes hw
  obtain ⟨ho, _⟩ := check_ports_bounds sigs s.network.listening_ports hw
  obtain ⟨hs, _⟩ := check_session_bounds sigs s.session hw
  unfold detect_remote_access
  dsimp only
  exact ⟨le_min (by linarith) (by norm_num), min_le_right _ _⟩

theorem detect_screen_share_bounds (sigs : SignatureSet) (s : SystemData)
    (hw : weights_nonneg sigs.weights) :
    0 ≤ (detect_screen_share sigs s).1 ∧ (detect_screen_share sigs s).1 ≤ 1 := by
  obtain ⟨hp, _⟩ := check_processes_bounds sigs.weights
    sigs.screen_share_indicators.processes s.processes hw
  have h2a : (0:ℚ) ≤ min (0.25 *
      ((browser_scan sigs.screen_share_indicators.browser_processes s.processes).2.length : ℚ)) 0.35 :=
    le_min (by positivity) (by norm_num)
  have h3a : (0:ℚ) ≤ min (0.1 *
      ((browser_scan sigs.screen_share_indicators.browser_processes s.processes).1.length : ℚ)) 0.2 :=
    le_min (by positivity) (by norm_num)
  unfold detect_screen_share
  dsimp only
  split_ifs <;> exact ⟨le_min (by linarith) (by norm_num), min_le_right _ _⟩

/-- Claim C1 (corrected): whenever every configured weight is
non-negative, each of the three category confidences returned by `analyze`
lies in [0, 1] — each category sums its checkers' scores and clamps the
sum at 1, and no confidence is negative.  The non-negativity hypothesis is
necessary: see the counterexample with a negative weight. -/
theorem claim_C1_bounds (sigs : SignatureSet) (is_windows : Bool) (s : SystemData)
    (hw : weights_nonneg sigs.weights) :
    (0 ≤ (analyze sigs is_windows s).vm_confidence ∧
      (analyze sigs is_windows s).vm_confidence ≤ 1) ∧
    (0 ≤ (analyze sigs is_windows s).remote_access_confidence ∧
      (analyze sigs is_windows s).remote_access_confidence ≤ 1) ∧
    (0 ≤ (analyze sigs is_windows s).screen_share_confidence ∧
      (analyze sigs is_windows s).screen_share_confidence ≤ 1) := by
  have hv := detect_vm_bounds sigs is_windows s hw
  have hr := detect_remote_access_bounds sigs s hw
  have hs := detect_screen_share_bounds sigs s hw
  simp only [analyze]
  exact ⟨hv, hr, hs⟩

/-- A signature configuration with a negative `bios_match` weight. -/
def c1_sigs : SignatureSet :=
  { vm_indicators := { bios_keywords := ["vm"] }
    weights := [("bios_match", -2)] }

/-- A snapshot whose BIOS manufacturer matches the configured keyword. -/
def c1_snap : SystemData := { bios := { manufacturer := "vm" } }

/-- Claim C1 (corrected), counterexample: with the (well-formed) signature
configuration carrying weight `bios_match = -2`, the matching snapshot
yields a VM confidence of -2 — the code clamps with `min(score, 1.0)` only,
so a negative weight drives the confidence below 0 and the claim fails as
stated for arbitrary signature configurations. -/
theorem claim_C1_counterexample :
    (analyze c1_sigs false c1_snap).vm_confidence < 0 := by
  have hA : strContains "vm" (lowerStr "vm") = true := by decide
  have hB : strContains "vm" (lowerStr "") = false := by decide
  norm_num [analyze, detect_vm, check_bios_keywords, check_mac_addresses, check_processes,
    check_gpu_artifacts, check_timing_anomalies, timing_variance_check, timing_cpu_count_check,
    timing_freq_check, c1_sigs, c1_snap, dget, List.lookup, vm_gpu_keywords, hA, hB]

theorem claim_C1_bounds_witness :
    weights_nonneg default_signatures.weights ∧
    ((0 ≤ (analyze default_signatures false {}).vm_confidence ∧
      (analyze default_signatures false {}).vm_confidence ≤ 1) ∧
    (0 ≤ (analyze default_signatures false {}).remote_access_confidence ∧
      (analyze default_signatures false {}).remote_access_confidence ≤ 1) ∧
    (0 ≤ (analyze default_signatures false {}).screen_share_confidence ∧
      (analyze default_signatures false {}).screen_share_confidence ≤ 1)) :=
  ⟨by simp [weights_nonneg, default_signatures],
   claim_C1_bounds default_signatures false {} (by simp [weights_nonneg, default_signatures])⟩

/-! Claim C2. -/

/-- Claim C2 (confirmed): `analyze` sets each category's detected flag to
true if and only if that category's score is at least its threshold
(inclusive comparison), and an omitted threshold defaults to 0.5 for VM,
0.4 for remote access and 0.3 for screen share (the `dget` defaults in the
statement are exactly the fallbacks of detector.py lines 357-359). -/
theorem claim_C2_thresholds (sigs : SignatureSet) (is_windows : Bool) (s : SystemData) :
    ((analyze sigs is_windows s).vm_detected = true ↔
      dget sigs.thresholds "vm_confidence" 0.5 ≤ (analyze sigs is_windows s).vm_confidence) ∧
    ((analyze sigs is_windows s).remote_access_detected = true ↔
      dget sigs.thresholds "remote_confidence" 0.4 ≤
        (analyze sigs is_windows s).remote_access_confidence) ∧
    ((analyze sigs is_windows s).screen_share_detected = true ↔
      dget sigs.thresholds "screen_share_confidence" 0.3 ≤
        (analyze sigs is_windows s).screen_share_confidence) := by
  refine ⟨?_, ?_, ?_⟩ <;> simp [analyze, ge_iff_le]

/-! Claim C3. -/

/-- Claim C3 (corrected), counterexample: on the snapshot whose `processes`
field holds the number 5, the very first checker that touches it
(`_check_processes`, via `set(process_list)`) raises `TypeError`, and
`analyze` propagates the exception instead of substituting a zero score —
no `DetectionResult` is produced. -/
theorem claim_C3_counterexample :
    analyze_dyn default_signatures false (PyVal.dict [("processes", PyVal.num 5)]) =
      Except.error "TypeError: not iterable" := by rfl

/-- Claim C3 (corrected): `analyze` has no per-checker failure recovery.
Absent snapshot fields are defaulted to empty values and the analysis
completes (first conjunct: the empty snapshot dict), but a type-malformed
field makes the affected checker raise and the exception aborts the whole
analysis (second conjunct: a numeric `network` field). -/
theorem claim_C3_no_recovery :
    exceptOk (analyze_dyn default_signatures false (PyVal.dict [])) = true ∧
    exceptOk (analyze_dyn default_signatures false
      (PyVal.dict [("network", PyVal.num 3)])) = false := by
  constructor
  · norm_num [analyze_dyn, detect_vm_dyn, detect_remote_access_dyn, detect_screen_share_dyn,
      check_bios_keywords_dyn, check_mac_addresses_dyn, check_processes_dyn,
      check_ports_dyn, check_session_dyn, check_gpu_artifacts_dyn,
      check_timing_anomalies_dyn, pyGet, pyLookup, pyIter, pySet, pyMemSet, pyTruthy,
      pyEqAtom, pyToNum, pyStr, pyHashable, default_signatures, dget, exceptOk,
      Bind.bind, Except.bind, Pure.pure, Except.pure, lowerStr, strContains]
  · rfl

/-! Claim C4. -/

/-- Claim C4 (corrected), counterexample: an unreadable (but existing)
signature file raises instead of falling back to the defaults — only
`FileNotFoundError` and `json.JSONDecodeError` are caught — and a
syntactically valid document of the wrong shape (here the JSON string
"hello") is returned as-is, not replaced by the default `SignatureSet`. -/
theorem claim_C4_counterexample :
    load_signatures SigSource.unreadable = Except.error "PermissionError" ∧
    load_signatures (SigSource.content (PyVal.str "hello")) = Except.ok (PyVal.str "hello") ∧
    PyVal.str "hello" ≠ default_signatures_json :=
  ⟨rfl, rfl, by simp [default_signatures_json]⟩

/-- Claim C4 (corrected): signature loading returns the built-in default
set, whole (no partial merge), on a missing file or on syntactically
invalid JSON; an unreadable file propagates the I/O error, and any
successfully parsed document is returned unchanged whatever its shape. -/
theorem claim_C4_load_behavior :
    load_signatures SigSource.missing = Except.ok default_signatures_json ∧
    load_signatures SigSource.invalidJson = Except.ok default_signatures_json ∧
    load_signatures SigSource.unreadable = Except.error "PermissionError" ∧
    ∀ v, load_signatures (SigSource.content v) = Except.ok v :=
  ⟨rfl, rfl, rfl, fun _ => rfl⟩

/-! Claim C5. -/

theorem foldl_fixed {α β : Type} (l : List α) (init : β) :
    List.foldl (fun acc _ => acc) init l = init := by
  induction l generalizing init with
  | nil => rfl
  | cons a t ih => simpa using ih init

theorem foldl_no_step {α β : Type} (f : β → α → β) :
    ∀ (l : List α), (∀ acc a, a ∈ l → f acc a = acc) → ∀ init, l.foldl f init = init := by
  intro l
  induction l with
  | nil => intro h init; rfl
  | cons a t ih =>
    intro h init
    rw [List.foldl_cons, h init a (List.mem_cons_self a t)]
    exact ih (fun acc b hb => h acc b (List.mem_cons_of_mem a hb)) init

/-- Claim C5 (corrected): under the built-in default `SignatureSet` every
signature-driven checker contributes zero, and all three confidences are 0
with all three flags false — but only for snapshots that do not trigger the
hard-coded heuristics that ignore the signature lists.  The hypotheses are
exactly those four heuristics not firing: no snapshot GPU device name
contains a hard-coded VM keyword, the Windows no-GPU fallback condition
(the source's conjunction, detector.py lines 151-152) is false, the SSH
connection flag is off, and there are no active meeting browsers.  The
platform and the GPU fields are otherwise arbitrary; the counterexample
shows the unrestricted claim fails. -/
theorem claim_C5_default_zero (is_windows : Bool) (s : SystemData)
    (hgpu_kw : ∀ d ∈ s.gpu.devices, ∀ kw ∈ vm_gpu_keywords,
      strContains kw (lowerStr d) = false)
    (hgpu_win : (is_windows &&
      (!s.gpu.nvidia_driver && !s.gpu.amd_driver && !s.gpu.intel_driver &&
       s.gpu.count == 0 && s.gpu.processes.length == 0 && s.gpu.devices.length == 0)) = false)
    (hssh : s.session.ssh_connection = false)
    (hact : s.browser_connections.active_meeting_browsers = []) :
    (analyze default_signatures is_windows s).vm_confidence = 0 ∧
    (analyze default_signatures is_windows s).remote_access_confidence = 0 ∧
    (analyze default_signatures is_windows s).screen_share_confidence = 0 ∧
    (analyze default_signatures is_windows s).vm_detected = false ∧
    (analyze default_signatures is_windows s).remote_access_detected = false ∧
    (analyze default_signatures is_windows s).screen_share_detected = false := by
  have hgpu : check_gpu_artifacts [] is_windows s.gpu = (0, []) := by
    unfold check_gpu_artifacts
    have hfold0 : s.gpu.devices.foldl (fun acc device =>
        let device_name := lowerStr device
        vm_gpu_keywords.foldl (fun acc keyword =>
          if strContains keyword device_name then
            (acc.1 + dget [] "gpu_match" 0.15,
             acc.2 ++ ["GPU: " ++ keyword ++ " found in GPU name"])
          else acc) acc) ((0 : ℚ), ([] : List String)) = ((0 : ℚ), ([] : List String)) := by
      apply foldl_no_step
      intro acc d hd
      dsimp only
      apply foldl_no_step
      intro acc2 kw hkw
      rw [hgpu_kw d hd kw hkw]
      simp
    dsimp only
    rw [hfold0, hgpu_win]
    norm_num
  norm_num [analyze, detect_vm, detect_remote_access, detect_screen_share, check_bios_keywords,
    check_mac_addresses, check_processes, check_ports, check_session,
    browser_scan, default_signatures, dget, List.lookup, hgpu, hssh, hact, foldl_fixed,
    decide_eq_false_iff_not]

/-- A snapshot with an active SSH connection and nothing else. -/
def c5_snap : SystemData := { session := { ssh_connection := true } }

/-- Claim C5 (corrected), counterexample: with the default (empty)
signatures, a snapshot whose session reports an SSH connection still gets
remote-access confidence 0.3 — `_check_session` adds the `session_match`
default weight for the SSH flag independently of any signature list — so
the default signatures do not make every confidence zero. -/
theorem claim_C5_counterexample :
    (analyze default_signatures false c5_snap).remote_access_confidence = 0.3 ∧
    (0.3 : ℚ) ≠ 0 := by
  constructor
  · norm_num [analyze, detect_remote_access, check_processes, check_ports, check_session,
      c5_snap, default_signatures, dget, List.lookup, foldl_fixed]
  · norm_num

theorem claim_C5_default_zero_witness :
    ((∀ d ∈ ({} : SystemData).gpu.devices, ∀ kw ∈ vm_gpu_keywords,
        strContains kw (lowerStr d) = false) ∧
     ((false : Bool) &&
       (!({} : SystemData).gpu.nvidia_driver && !({} : SystemData).gpu.amd_driver &&
        !({} : SystemData).gpu.intel_driver && ({} : SystemData).gpu.count == 0 &&
        ({} : SystemData).gpu.processes.length == 0 &&
        ({} : SystemData).gpu.devices.length == 0)) = false ∧
     ({} : SystemData).session.ssh_connection = false ∧
     ({} : SystemData).browser_connections.active_meeting_browsers = []) ∧
    ((analyze default_signatures false {}).vm_confidence = 0 ∧
     (analyze default_signatures false {}).remote_access_confidence = 0 ∧
     (analyze default_signatures false {}).screen_share_confidence = 0 ∧
     (analyze default_signatures false {}).vm_detected = false ∧
     (analyze default_signatures false {}).remote_access_detected = false ∧
     (analyze default_signatures false {}).screen_share_detected = false) :=
  ⟨⟨by simp, rfl, rfl, rfl⟩,
   claim_C5_default_zero false {} (by simp) rfl rfl rfl⟩

/-! Claim C8. -/

/-- Claim C8 (confirmed): on a history of fewer than two entries,
`analyze_patterns` returns the insufficient-data dictionary — which carries
no totals, averages, or anomaly list — and nothing else is computed. -/
theorem claim_C8_insufficient (history : List HistoryEntry) (h : history.length < 2) :
    analyze_patterns history =
      PatternResult.insufficient "Not enough history data for pattern analysis" := by
  cases history with
  | nil => rfl
  | cons a t =>
    cases t with
    | nil => rfl
    | cons b t2 => simp at h; omega

theorem claim_C8_insufficient_witness :
    ([] : List HistoryEntry).length < 2 ∧
    analyze_patterns ([] : List HistoryEntry) =
      PatternResult.insufficient "Not enough history data for pattern analysis" :=
  ⟨by decide, claim_C8_insufficient [] (by decide)⟩

/-! Claim C9. -/

/-- A signature set with two browser processes configured. -/
def c9_sigs : SignatureSet :=
  { screen_share_indicators := { browser_processes := ["chrome", "firefox"] } }

/-- A snapshot triggering only the tier-1 active-meeting heuristic. -/
def c9_snap_tier1 : SystemData :=
  { browser_connections := { active_meeting_browsers := ["chrome"] } }

/-- A snapshot triggering only the tier-2 browser-command-line heuristic,
for two distinct browsers. -/
def c9_snap_tier2 : SystemData :=
  { processes := ["chrome_screenshare", "firefox_screenshare"] }

/-- Claim C9 (corrected), counterexample: tier 1 does not carry the highest
confidence.  Under the same signatures, the tier-1 snapshot scores a fixed
0.25 while a tier-2 snapshot with two matching browsers scores 0.35 — the
tier ordering is a fixed priority order, not a confidence order. -/
theorem claim_C9_counterexample :
    (detect_screen_share c9_sigs c9_snap_tier1).1 = 0.25 ∧
    (detect_screen_share c9_sigs c9_snap_tier2).1 = 0.35 ∧
    c9_snap_tier1.browser_connections.active_meeting_browsers ≠ [] ∧
    ((0.25 : ℚ) < 0.35) := by
  have hscan2 : browser_scan ["chrome", "firefox"] ["chrome_screenshare", "firefox_screenshare"] =
      ([], ["chrome", "firefox"]) := by decide
  refine ⟨?_, ?_, by simp [c9_snap_tier1], by norm_num⟩
  · norm_num [detect_screen_share, check_processes, browser_scan, c9_sigs, c9_snap_tier1,
      dget, List.lookup]
  · norm_num [detect_screen_share, check_processes, c9_sigs, c9_snap_tier2,
      dget, List.lookup, hscan2]
    norm_num [List.cons_ne_nil]

/-- Claim C9 (corrected): the three browser evidence tiers are evaluated in
priority order and are mutually exclusive — exactly the single
highest-priority applicable tier contributes, lower tiers being suppressed
(each case equation shows the score is the checker base plus only that
tier's contribution) — but tier 1 contributes a fixed 0.25, which is not
the highest possible confidence: tier 2 contributes up to 0.35 (see the
counterexample). -/
theorem claim_C9_tiers (sigs : SignatureSet) (s : SystemData) :
    (s.browser_connections.active_meeting_browsers ≠ [] →
      (detect_screen_share sigs s).1 =
        min ((check_processes sigs.weights sigs.screen_share_indicators.processes s.processes).1
          + 0.25) 1) ∧
    (s.browser_connections.active_meeting_browsers = [] →
     (browser_scan sigs.screen_share_indicators.browser_processes s.processes).2 ≠ [] →
      (detect_screen_share sigs s).1 =
        min ((check_processes sigs.weights sigs.screen_share_indicators.processes s.processes).1 +
          min (0.25 * (((browser_scan sigs.screen_share_indicators.browser_processes
            s.processes).2.length : ℚ))) 0.35) 1) ∧
    (s.browser_connections.active_meeting_browsers = [] →
     (browser_scan sigs.screen_share_indicators.browser_processes s.processes).2 = [] →
     (browser_scan sigs.screen_share_indicators.browser_processes s.processes).1 ≠ [] →
      (detect_screen_share sigs s).1 =
        min ((check_processes sigs.weights sigs.screen_share_indicators.processes s.processes).1 +
          min (0.1 * (((browser_scan sigs.screen_share_indicators.browser_processes
            s.processes).1.length : ℚ))) 0.2) 1) ∧
    (s.browser_connections.active_meeting_browsers = [] →
     (browser_scan sigs.screen_share_indicators.browser_processes s.processes).2 = [] →
     (browser_scan sigs.screen_share_indicators.browser_processes s.processes).1 = [] →
      (detect_screen_share sigs s).1 =
        min (check_processes sigs.weights sigs.screen_share_indicators.processes s.processes).1 1) := by
  unfold detect_screen_share
  dsimp only
  refine ⟨?_, ?_, ?_, ?_⟩ <;> intros <;> split_ifs <;> first | rfl | (exfalso; tauto)

theorem claim_C9_tiers_witness :
    c9_snap_tier1.browser_connections.active_meeting_browsers ≠ [] ∧
    (detect_screen_share c9_sigs c9_snap_tier1).1 =
      min ((check_processes c9_sigs.weights c9_sigs.screen_share_indicators.processes
        c9_snap_tier1.processes).1 + 0.25) 1 :=
  ⟨by simp [c9_snap_tier1],
   (claim_C9_tiers c9_sigs c9_snap_tier1).1 (by simp [c9_snap_tier1])⟩

/-! Claim C10. -/

/-- A BIOS whose manufacturer string is mixed-case. -/
def c10_bios : BiosData := { manufacturer := "VMware, Inc." }

/-- Signatures with the lowercase BIOS keyword. -/
def c10_sigs_lower : SignatureSet := { vm_indicators := { bios_keywords := ["vmware"] } }

/-- The same signatures with the keyword in its original vendor casing. -/
def c10_sigs_upper : SignatureSet := { vm_indicators := { bios_keywords := ["VMware"] } }

/-- Claim C10 (corrected), counterexample: changing only the letter case of
a signature BIOS keyword changes the checker score — the snapshot string is
lowercased before the substring test but the keyword is used verbatim, so
"vmware" matches "VMware, Inc." (score 0.4) while "VMware" does not
(score 0). -/
theorem claim_C10_counterexample :
    (check_bios_keywords c10_sigs_lower c10_bios).1 = 0.4 ∧
    (check_bios_keywords c10_sigs_upper c10_bios).1 = 0 ∧
    lowerStr "VMware" = lowerStr "vmware" := by
  have h1 : strContains "vmware" (lowerStr "VMware, Inc.") = true := by decide
  have h2 : strContains "vmware" (lowerStr "") = false := by decide
  have h3 : strContains "VMware" (lowerStr "VMware, Inc.") = false := by decide
  have h4 : strContains "VMware" (lowerStr "") = false := by decide
  refine ⟨?_, ?_, by decide⟩ <;>
    norm_num [check_bios_keywords, c10_sigs_lower, c10_sigs_upper, c10_bios, dget,
      List.lookup, h1, h2, h3, h4]

theorem browser_scan_inner_congr (bp bp2 : List String)
    (hmap : bp.map lowerStr = bp2.map lowerStr) :
    ∀ (acc : List String × List String) (pname : String),
    bp.foldl (fun acc browser =>
      if lowerStr browser == pname then
        (if acc.1.contains (lowerStr browser) then acc.1 else acc.1 ++ [lowerStr browser], acc.2)
      else if lowerStr browser ++ "_screenshare" == pname then
        (acc.1, if acc.2.contains (lowerStr browser) then acc.2 else acc.2 ++ [lowerStr browser])
      else acc) acc =
    bp2.foldl (fun acc browser =>
      if lowerStr browser == pname then
        (if acc.1.contains (lowerStr browser) then acc.1 else acc.1 ++ [lowerStr browser], acc.2)
      else if lowerStr browser ++ "_screenshare" == pname then
        (acc.1, if acc.2.contains (lowerStr browser) then acc.2 else acc.2 ++ [lowerStr browser])
      else acc) acc := by
  induction bp generalizing bp2 with
  | nil =>
    intro acc pname
    have : bp2 = [] := by
      cases bp2 with
      | nil => rfl
      | cons b t => simp at hmap
    simp [this]
  | cons b t ih =>
    intro acc pname
    cases bp2 with
    | nil => simp at hmap
    | cons b2 t2 =>
      simp only [List.map_cons, List.cons.injEq] at hmap
      obtain ⟨hb, ht⟩ := hmap
      simp only [List.foldl_cons, hb]
      exact ih t2 ht _ pname

/-- Claim C10 (corrected): case-insensitivity holds only on specific sides
of each comparison.  The BIOS and session checkers are invariant under
case changes of the snapshot strings (which are lowercased before
comparison), and the browser scan is invariant under case changes of the
signature browser names (which are lowercased); but signature BIOS/session
keywords are compared verbatim (see the counterexample) and
`_check_processes` compares process names case-sensitively on both sides. -/
theorem claim_C10_casefold (sigs : SignatureSet) :
    (∀ b b2 : BiosData,
      lowerStr b.manufacturer = lowerStr b2.manufacturer →
      lowerStr b.product = lowerStr b2.product →
      lowerStr b.cpu_info = lowerStr b2.cpu_info →
      check_bios_keywords sigs b = check_bios_keywords sigs b2) ∧
    (∀ sd sd2 : SessionData,
      lowerStr sd.session_name = lowerStr sd2.session_name →
      sd.ssh_connection = sd2.ssh_connection →
      check_session sigs sd = check_session sigs sd2) ∧
    (∀ (bp bp2 procs : List String),
      bp.map lowerStr = bp2.map lowerStr →
      browser_scan bp procs = browser_scan bp2 procs) := by
  refine ⟨?_, ?_, ?_⟩
  · intro b b2 hm hp hc
    simp only [check_bios_keywords, hm, hp, hc]
  · intro sd sd2 hn hs
    simp only [check_session, hn, hs]
  · intro bp bp2 procs hmap
    unfold browser_scan
    apply List.foldl_ext
    intro acc pname _
    exact browser_scan_inner_congr bp bp2 hmap acc pname

theorem claim_C10_casefold_witness :
    (lowerStr "ABC" = lowerStr "abc" ∧ lowerStr "" = lowerStr "") ∧
    check_bios_keywords default_signatures { manufacturer := "ABC" } =
      check_bios_keywords default_signatures { manufacturer := "abc" } :=
  ⟨⟨by decide, rfl⟩,
   (claim_C10_casefold default_signatures).1 { manufacturer := "ABC" } { manufacturer := "abc" }
     (by decide) rfl rfl⟩

/-! Claim C6: the history bound of `add_detection`. -/

theorem take_absorb {α : Type} (n : Nat) (a b : List α) :
    List.take n (a ++ List.take n b) = List.take n (a ++ b) := by
  rw [List.take_append_eq_append_take, List.take_append_eq_append_take, List.take_take]
  congr 1
  exact congrArg (fun m => List.take m b) (Nat.min_eq_left (Nat.sub_le n a.length))

theorem rtake_absorb {α : Type} (n : Nat) (xs ys : List α) :
    (xs.rtake n ++ ys).rtake n = (xs ++ ys).rtake n := by
  rw [List.rtake_eq_reverse_take_reverse, List.rtake_eq_reverse_take_reverse,
    List.rtake_eq_reverse_take_reverse]
  rw [List.reverse_append, List.reverse_reverse, List.reverse_append]
  rw [take_absorb]

theorem py_slice_last_eq_rtake {α : Type} (n : Nat) (l : List α) (h : n ≠ 0) :
    py_slice_last n l = l.rtake n := by
  simp [py_slice_last, List.rtake, h]

theorem add_detection_length_le (max_history : Nat) (h0 : 0 < max_history)
    (history : List HistoryEntry) (e : HistoryEntry) :
    (add_detection max_history history e).length ≤ max_history := by
  unfold add_detection save_history_trim
  rw [py_slice_last_eq_rtake _ _ (Nat.pos_iff_ne_zero.mp h0)]
  simp [List.rtake]
  omega

theorem foldl_add_detection (max_history : Nat) (h0 : 0 < max_history) :
    ∀ (entries start : List HistoryEntry), start.length ≤ max_history →
    entries.foldl (add_detection max_history) start = (start ++ entries).rtake max_history := by
  intro entries
  induction entries with
  | nil =>
    intro start hs
    simp [List.rtake, Nat.sub_eq_zero_of_le hs]
  | cons e rest ih =>
    intro start hs
    rw [List.foldl_cons]
    rw [ih (add_detection max_history start e)
      (add_detection_length_le max_history h0 start e)]
    have : add_detection max_history start e = (start ++ [e]).rtake max_history := by
      unfold add_detection save_history_trim
      exact py_slice_last_eq_rtake _ _ (Nat.pos_iff_ne_zero.mp h0)
    rw [this, rtake_absorb]
    simp

/-- Claim C6 (confirmed, for positive `max_history` — the constructor
default is 100): every `add_detection` call leaves at most `max_history`
entries, and appending `max_history + k` entries into an empty store leaves
exactly the `max_history` most recent entries in insertion order (the
oldest `k` are evicted first, i.e. the result is `entries.drop k`). -/
theorem claim_C6_history_bound (max_history : Nat) (h0 : 0 < max_history)
    (entries : List HistoryEntry) (k : Nat) (hk : entries.length = max_history + k) :
    (∀ (history : List HistoryEntry) (e : HistoryEntry),
      (add_detection max_history history e).length ≤ max_history) ∧
    entries.foldl (add_detection max_history) [] = entries.drop k ∧
    (entries.foldl (add_detection max_history) []).length = max_history := by
  have hfold := foldl_add_detection max_history h0 entries [] (by simp)
  simp only [List.nil_append] at hfold
  have hdrop : entries.rtake max_history = entries.drop k := by
    simp [List.rtake, hk]
  refine ⟨fun history e => add_detection_length_le max_history h0 history e, ?_, ?_⟩
  · rw [hfold, hdrop]
  · rw [hfold, hdrop, List.length_drop, hk]
    omega

def c6_e1 : HistoryEntry := { timestamp := "t1" }

def c6_e2 : HistoryEntry := { timestamp := "t2" }

def c6_e3 : HistoryEntry := { timestamp := "t3" }

theorem claim_C6_history_bound_witness :
    (0 < 2 ∧ [c6_e1, c6_e2, c6_e3].length = 2 + 1) ∧
    ((∀ (history : List HistoryEntry) (e : HistoryEntry),
        (add_detection 2 history e).length ≤ 2) ∧
     [c6_e1, c6_e2, c6_e3].foldl (add_detection 2) [] = [c6_e1, c6_e2, c6_e3].drop 1 ∧
     ([c6_e1, c6_e2, c6_e3].foldl (add_detection 2) []).length = 2) :=
  ⟨⟨by decide, by decide⟩,
   claim_C6_history_bound 2 (by decide) [c6_e1, c6_e2, c6_e3] 1 (by decide)⟩

/-! Claim C7: sudden-transition events. -/

/-- Recognizer for the sudden VM transition event. -/
def is_sudden_vm : Anomaly → Bool
  | .sudden_vm _ _ => true
  | _ => false

/-- Recognizer for the sudden remote-access event. -/
def is_sudden_remote : Anomaly → Bool
  | .sudden_remote _ _ => true
  | _ => false

/-- Recognizer for the sudden screen-share event. -/
def is_sudden_screen : Anomaly → Bool
  | .sudden_screen _ _ => true
  | _ => false

theorem sudden_counts (previous recent : HistoryEntry) :
    (sudden_anomalies previous recent).countP is_sudden_vm =
      (if previous.vm_detected = false ∧ recent.vm_detected = true then 1 else 0) ∧
    (sudden_anomalies previous recent).countP is_sudden_remote =
      (if previous.remote_access_detected = false ∧ recent.remote_access_detected = true
        then 1 else 0) ∧
    (sudden_anomalies previous recent).countP is_sudden_screen =
      (if previous.screen_share_detected = false ∧ recent.screen_share_detected = true
        then 1 else 0) := by
  unfold sudden_anomalies
  split_ifs <;>
    simp_all [is_sudden_vm, is_sudden_remote, is_sudden_screen, List.countP_append,
      List.countP_cons, List.countP_nil]

theorem sustained_no_sudden (h : List HistoryEntry) :
    (sustained_anomalies h).countP is_sudden_vm = 0 ∧
    (sustained_anomalies h).countP is_sudden_remote = 0 ∧
    (sustained_anomalies h).countP is_sudden_screen = 0 := by
  unfold sustained_anomalies
  dsimp only
  split_ifs <;>
    simp [is_sudden_vm, is_sudden_remote, is_sudden_screen, List.countP_cons, List.countP_nil]

theorem metric_no_sudden (h : List HistoryEntry) :
    (metric_anomalies h).countP is_sudden_vm = 0 ∧
    (metric_anomalies h).countP is_sudden_remote = 0 ∧
    (metric_anomalies h).countP is_sudden_screen = 0 := by
  unfold metric_anomalies
  dsimp only
  split_ifs <;>
    simp [is_sudden_vm, is_sudden_remote, is_sudden_screen, List.countP_append,
      List.countP_cons, List.countP_nil]

/-- Claim C7 (confirmed): on any history of length at least two (phrased
via its reversed form, whose first two elements are `history[-1]` and
`history[-2]`), `analyze_patterns` returns a full analysis whose anomaly
list contains a sudden-transition event for a category exactly when that
category's detected flag flips from false (previous entry) to true (recent
entry) — one event when it flips, zero otherwise, each category counted
independently, and no other anomaly kind contributes to these counts. -/
theorem claim_C7_sudden_transitions (history : List HistoryEntry)
    (recent previous : HistoryEntry) (rest : List HistoryEntry)
    (hrev : history.reverse = recent :: previous :: rest) :
    ∃ a, analyze_patterns history = PatternResult.analysis a ∧
      a.anomalies.countP is_sudden_vm =
        (if previous.vm_detected = false ∧ recent.vm_detected = true then 1 else 0) ∧
      a.anomalies.countP is_sudden_remote =
        (if previous.remote_access_detected = false ∧ recent.remote_access_detected = true
          then 1 else 0) ∧
      a.anomalies.countP is_sudden_screen =
        (if previous.screen_share_detected = false ∧ recent.screen_share_detected = true
          then 1 else 0) := by
  unfold analyze_patterns
  rw [hrev]
  refine ⟨_, rfl, ?_, ?_, ?_⟩ <;>
    simp only [List.countP_append, (sudden_counts previous recent).1,
      (sudden_counts previous recent).2.1, (sudden_counts previous recent).2.2,
      (sustained_no_sudden history).1, (sustained_no_sudden history).2.1,
      (sustained_no_sudden history).2.2, (metric_no_sudden history).1,
      (metric_no_sudden history).2.1, (metric_no_sudden history).2.2] <;>
    omega

def c7_prev : HistoryEntry := { timestamp := "t1" }

def c7_recent : HistoryEntry := { timestamp := "t2", vm_detected := true, vm_confidence := 0.6 }

theorem claim_C7_witness :
    ([c7_prev, c7_recent].reverse = c7_recent :: c7_prev :: []) ∧
    (∃ a, analyze_patterns [c7_prev, c7_recent] = PatternResult.analysis a ∧
      a.anomalies.countP is_sudden_vm =
        (if c7_prev.vm_detected = false ∧ c7_recent.vm_detected = true then 1 else 0) ∧
      a.anomalies.countP is_sudden_remote =
        (if c7_prev.remote_access_detected = false ∧ c7_recent.remote_access_detected = true
          then 1 else 0) ∧
      a.anomalies.countP is_sudden_screen =
        (if c7_prev.screen_share_detected = false ∧ c7_recent.screen_share_detected = true
          then 1 else 0)) :=
  ⟨rfl, claim_C7_sudden_transitions [c7_prev, c7_recent] c7_recent c7_prev [] rfl⟩

end VMDetect
